import Mathlib

/-!
Shallow embedding of `vae_seq/vae/independent_sequence.py` (variant A) and
`vaeseq/vae/independent_sequence.py` (variant B): the `IndependentSequence`
orchestrator, the `ObsDist` and `LatentPrior` DistCores, and the recurrent
sweeps they use.  Tensors of shape [batch, time, feature] are embedded as
batch-major nested lists of rational-valued feature vectors; recurrent cells
are explicit step functions threading a state.  External collaborators
(observation encoder/decoder, latent parameter decoder, the KL-divergence
function) are parameters of the embedded pipeline, matching the spec's
treatment of them as external interfaces.
-/

namespace VaeSeq

/-- A feature vector (the innermost tensor axis). -/
abbrev Vec := List Rat

/-- A batch-major [batch, time, ...] tensor: outer list = batch, inner = time. -/
abbrev BSeq (α : Type) : Type := List (List α)

/-- Apply a module elementwise over the batch and time axes; embeds
`snt.BatchApply(module, n_dims=2)`. -/
def mapSeq (f : α → β) (xs : BSeq α) : BSeq β :=
  xs.map (List.map f)

/-- Elementwise combination of two equally shaped batch-major tensors. -/
def zipSeqWith (f : α → β → γ) (xs : BSeq α) (ys : BSeq β) : BSeq γ :=
  List.zipWith (List.zipWith f) xs ys

/-- Shape errors surfaced while combining misaligned sequences. -/
inductive ShapeError
  | batchMismatch
  | timeMismatch
deriving DecidableEq

/-- Lengths of the time axis per batch element: the layout a shape check
compares. -/
def layoutOf (xs : BSeq α) : List Nat :=
  xs.map List.length

/-- Decidable batch/time alignment of two batch-major tensors. -/
def sameLayout (xs : BSeq α) (ys : BSeq β) : Bool :=
  layoutOf xs == layoutOf ys

/-- The shape error raised for a pair of misaligned layouts: a batch-axis
mismatch when the batch lengths differ, otherwise the first time-axis
disagreement. -/
def concatErrOf : List Nat → List Nat → ShapeError
  | [], [] => ShapeError.batchMismatch
  | a :: as, b :: bs => if a = b then concatErrOf as bs else ShapeError.timeMismatch
  | _, _ => ShapeError.batchMismatch

/-- Modelled from the spec: the per-batch-element part of `util.concat_features`
(not under src/), concatenating two aligned rows of feature vectors along the
feature axis and failing on a time-axis mismatch. -/
def concatRows : List Vec → List Vec → Except ShapeError (List Vec)
  | [], [] => Except.ok []
  | x :: xs, y :: ys =>
      match concatRows xs ys with
      | Except.ok rest => Except.ok ((x ++ y) :: rest)
      | Except.error e => Except.error e
  | _, _ => Except.error ShapeError.timeMismatch

/-- Modelled from the spec: `util.concat_features` (not under src/), which
concatenates per-timestep context and encoded observation along the feature
axis; it fails on any batch-axis or time-axis misalignment, before any value
is consumed downstream. -/
def concatFeatures : BSeq Vec → BSeq Vec → Except ShapeError (BSeq Vec)
  | [], [] => Except.ok []
  | r :: rs, t :: ts =>
      match concatRows r t with
      | Except.ok row =>
          match concatFeatures rs ts with
          | Except.ok rest => Except.ok (row :: rest)
          | Except.error e => Except.error e
      | Except.error e => Except.error e
  | _, _ => Except.error ShapeError.batchMismatch

/-- A recurrent cell as produced by `util.make_rnn`: a default per-element
initial state and a step function `(input, state) -> (output, next_state)`. -/
structure RNNCell (σ α β : Type) where
  init : σ
  step : α → σ → β × σ

/-- The batched default initial state, `cell.initial_state(batch_size)`. -/
def initialState (cell : RNNCell σ α β) (batchSize : Nat) : List σ :=
  List.replicate batchSize cell.init

/-- Left-to-right unroll of a step function over one batch element's time axis,
returning the per-timestep outputs and the final state. -/
def unroll (step : α → σ → β × σ) : σ → List α → List β × σ
  | s, [] => ([], s)
  | s, x :: xs =>
      ((step x s).1 :: (unroll step (step x s).2 xs).1,
        (unroll step (step x s).2 xs).2)

/-- Right-to-left sweep over one batch element's time axis: the state enters at
the last timestep and flows toward the first, so the output at position t is
computed from the state arriving from position t+1. -/
def backwardSweep (step : α → σ → β × σ) : σ → List α → List β × σ
  | s, [] => ([], s)
  | s, x :: xs =>
      ((step x (backwardSweep step s xs).2).1 :: (backwardSweep step s xs).1,
        (step x (backwardSweep step s xs).2).2)

/-- Embeds `tf.nn.dynamic_rnn`: run the cell forward over every batch element
independently from the supplied per-element initial states; the number of
initial states must match the batch axis. -/
def dynamicRNN (cell : RNNCell σ α β) (initStates : List σ) (inputs : BSeq α) :
    Except ShapeError (BSeq β × List σ) :=
  if initStates.length = inputs.length then
    Except.ok
      ((List.zipWith (fun s row => unroll cell.step s row) initStates inputs).map Prod.fst,
        (List.zipWith (fun s row => unroll cell.step s row) initStates inputs).map Prod.snd)
  else Except.error ShapeError.batchMismatch

/-- Modelled from the spec: `util.reverse_dynamic_rnn` (not under src/) —
"reverse the input sequence along the time axis, run the forward recurrence,
reverse the output back". -/
def reverseDynamicRNN (cell : RNNCell σ α β) (initStates : List σ) (inputs : BSeq α) :
    Except ShapeError (BSeq β × List σ) :=
  match dynamicRNN cell initStates (inputs.map List.reverse) with
  | Except.ok (outs, finalStates) => Except.ok (outs.map List.reverse, finalStates)
  | Except.error e => Except.error e

/-- A genuine right-to-left batched sweep, the reference the reverse-sweep
construction is checked against. -/
def backwardDynamicRNN (cell : RNNCell σ α β) (initStates : List σ) (inputs : BSeq α) :
    Except ShapeError (BSeq β × List σ) :=
  if initStates.length = inputs.length then
    Except.ok
      ((List.zipWith (fun s row => backwardSweep cell.step s row) initStates inputs).map Prod.fst,
        (List.zipWith (fun s row => backwardSweep cell.step s row) initStates inputs).map Prod.snd)
  else Except.error ShapeError.batchMismatch

/-- A diagonal-covariance Gaussian given by its location and scale tensors,
generic in the tensor shape (`T` is `List Vec` for a [batch, latent] prior and
`BSeq Vec` for a [batch, time, latent] prior). -/
structure MVNDiag (T : Type) where
  loc : T
  scaleDiag : T
deriving DecidableEq

/-- A tensor of zeros with the shape of the argument, `tf.zeros_like`. -/
def zerosLike (x : BSeq Vec) : BSeq Vec :=
  mapSeq (fun v => v.map fun _ => (0 : Rat)) x

/-- A tensor of ones with the shape of the argument, `tf.ones_like`. -/
def onesLike (x : BSeq Vec) : BSeq Vec :=
  mapSeq (fun v => v.map fun _ => (1 : Rat)) x

/-- The hyperparameter bundle: the read accessors the two variants consult
(`util.batch_size(hparams)` reads `batchSize`, modelled from the spec's
description of the bundle, which is not under src/). -/
structure HParams where
  batchSize : Nat
  latentSize : Nat
  obsShape : List Nat
deriving DecidableEq

/-- Tensor element dtypes, as far as the descriptors compare them. -/
inductive DType
  | float32
  | float64
  | int32
deriving DecidableEq

/-- The external observation decoder's declared descriptors (its `event_size`
and `event_dtype` properties). -/
structure ObsDecoderSig where
  eventSize : List Nat
  eventDtype : DType
deriving DecidableEq

/-! ### LatentPrior, variant A (`vae_seq/vae/independent_sequence.py`) -/

/-- Variant A `LatentPrior`: `__init__` builds the prior distribution once,
with `dims = [util.batch_size(hparams), hparams.latent_size]`, and stores it in
`self._dist`. -/
structure LatentPriorA where
  hparams : HParams
  distCached : MVNDiag (List Vec)

/-- Variant A `LatentPrior.__init__`: constructs the zero-location, unit-scale
distribution of shape [hparams.batch_size, hparams.latent_size] at module
construction time and caches it. -/
def LatentPriorA.ofHParams (hp : HParams) : LatentPriorA :=
  ⟨hp,
    ⟨List.replicate hp.batchSize (List.replicate hp.latentSize (0 : Rat)),
      List.replicate hp.batchSize (List.replicate hp.latentSize (1 : Rat))⟩⟩

/-- Variant A `LatentPrior.dist(params)`: deletes `params` and returns the
cached distribution. -/
def latentPriorDistA (lp : LatentPriorA) (params : Unit) : MVNDiag (List Vec) :=
  lp.distCached

/-- Variant A `LatentPrior._build(context, state)`: deletes both arguments and
returns `((), ())`. -/
def latentPriorBuildA (context : List Vec) (state : Unit) : Unit × Unit :=
  ((), ())

/-! ### LatentPrior, variant B (`vaeseq/vae/independent_sequence.py`) -/

/-- Variant B `LatentPrior.dist(batch_size)`: freshly constructs, on every
call, the zero-location, unit-scale distribution with
`dims = [batch_size, hparams.latent_size]`. -/
def latentPriorDistB (hp : HParams) (batchSize : Nat) : MVNDiag (List Vec) :=
  ⟨List.replicate batchSize (List.replicate hp.latentSize (0 : Rat)),
    List.replicate batchSize (List.replicate hp.latentSize (1 : Rat))⟩

/-- Modelled from the spec: `util.batch_size_from_nested_tensors` (not under
src/), "extracting the batch size implied by context's leading dimension". -/
def batchSizeFromNestedTensors (t : List α) : Nat :=
  t.length

/-- Variant B `LatentPrior._build(context, state)`: deletes the state and
returns the batch size read off the context's leading dimension, paired with
the empty state. -/
def latentPriorBuildB (context : List Vec) (state : Unit) : Nat × Unit :=
  (batchSizeFromNestedTensors context, ())

/-- Both variants' `LatentPrior._next_state(state_arg, event)`: deletes both
arguments (of whatever type) and returns `()`. -/
def latentPriorNextState (stateArg : τ) (event : Option ε) : Unit :=
  ()

/-- The per-timestep states visited when a rollout threads state through a step
function: state after step 1, after step 2, and so on. -/
def rolloutStates (step : α → σ → β × σ) (s : σ) : List α → List σ
  | [] => []
  | x :: xs => (step x s).2 :: rolloutStates step (step x s).2 xs

/-- The reference prior the claims compare against: a freshly constructed
[batch_size, latent_size] diagonal Gaussian with location exactly zero and
scale exactly one. -/
def freshZeroOnePrior (latentSize batchSize : Nat) : MVNDiag (List Vec) :=
  ⟨List.replicate batchSize (List.replicate latentSize (0 : Rat)),
    List.replicate batchSize (List.replicate latentSize (1 : Rat))⟩

/-! ### ObsDist (both variants) -/

/-- Modelled from the spec: the single-timestep form of `util.concat_features`
(not under src/), flattening a nested group of context feature vectors into one
feature vector. -/
def concatFeatureGroup (context : List Vec) : Vec :=
  context.flatten

/-- Variant A `ObsDist._build(inputs, d_state)`: splits `inputs` into context
and latent, feeds the concatenated context through the wrapped cell `d`, and
hands the deterministic output together with the latent to the external
observation decoder (called with two arguments in this variant). -/
def obsDistBuildA (dCore : RNNCell σ Vec Vec) (obsDecoder : Vec → Vec → P)
    (inputs : List Vec × Vec) (dState : σ) : P × σ :=
  ((obsDecoder (dCore.step (concatFeatureGroup inputs.1) dState).1 inputs.2),
    (dCore.step (concatFeatureGroup inputs.1) dState).2)

/-- Variant B `ObsDist._build(inputs, d_state)`: identical to variant A except
that the external observation decoder is called on the pair
`(d_out, latent)`. -/
def obsDistBuildB (dCore : RNNCell σ Vec Vec) (obsDecoder : Vec × Vec → P)
    (inputs : List Vec × Vec) (dState : σ) : P × σ :=
  ((obsDecoder ((dCore.step (concatFeatureGroup inputs.1) dState).1, inputs.2)),
    (dCore.step (concatFeatureGroup inputs.1) dState).2)

/-- Both variants' `ObsDist._next_state(d_state, event)`: the event is unused
and the cell state is returned unchanged. -/
def obsDistNextState (dState : σ) (event : Option ε) : σ :=
  dState

/-- Variant A `ObsDist.event_size`: `tf.TensorShape(self._hparams.obs_shape)`,
read from the hyperparameter bundle the module was constructed with. -/
def obsDistEventSizeA (hp : HParams) (dec : ObsDecoderSig) : List Nat :=
  hp.obsShape

/-- Variant A `ObsDist.event_dtype`: delegates to the wrapped observation
decoder. -/
def obsDistEventDtypeA (hp : HParams) (dec : ObsDecoderSig) : DType :=
  dec.eventDtype

/-- Variant B `ObsDist.event_size`: delegates to the wrapped observation
decoder. -/
def obsDistEventSizeB (dec : ObsDecoderSig) : List Nat :=
  dec.eventSize

/-- Variant B `ObsDist.event_dtype`: delegates to the wrapped observation
decoder. -/
def obsDistEventDtypeB (dec : ObsDecoderSig) : DType :=
  dec.eventDtype

/-! ### IndependentSequence.infer_latents -/

/-- The external collaborators `infer_latents` closes over: the observation
encoder, the `e` and `f` cells from `util.make_rnn`, the latent parameter
decoder `latent_q` (its parameter map `qz`), the posterior's per-element
sampler (the reparameterized `q_zs.sample()`, with randomness supplied
externally), and the per-element divergence function of `util.calc_kl`.  The
latent parameter decoder and `util.calc_kl` are not under src/ and are
modelled from the spec as interface parameters. -/
structure InferModel (Obs σe σf QP : Type) where
  obsEncoder : Obs → Vec
  eCore : RNNCell σe Vec Vec
  fCore : RNNCell σf Vec Vec
  qz : Vec → QP
  sampleQ : QP → Vec
  calcKl : QP → Vec × Vec → Vec → Rat

/-- Modelled from the spec: `util.calc_kl` (not under src/), computing the
per-timestep divergence between the posterior (given by its parameters and the
sampled latent) and the prior, elementwise over the batch and time axes. -/
def calcKlSeq (kl : QP → Vec × Vec → Vec → Rat) (q : BSeq QP) (z : BSeq Vec)
    (p : MVNDiag (BSeq Vec)) : BSeq Rat :=
  zipSeqWith (fun qz2 pp => kl qz2.1 pp qz2.2)
    (zipSeqWith Prod.mk q z) (zipSeqWith Prod.mk p.loc p.scaleDiag)

/-- Variant A's inline prior `p_zs` (lines 81-84): a diagonal Gaussian with
location `tf.zeros_like(latents)` and scale `tf.ones_like(latents)`. -/
def inferPriorA (latents : BSeq Vec) : MVNDiag (BSeq Vec) :=
  ⟨zerosLike latents, onesLike latents⟩

/-- Variant B's inline prior `p_zs` (lines 65-68): a diagonal Gaussian with
location `tf.zeros_like(latents)` and scale `tf.ones_like(latents)`. -/
def inferPriorB (latents : BSeq Vec) : MVNDiag (BSeq Vec) :=
  ⟨zerosLike latents, onesLike latents⟩

/-- The spec's wording of the inline prior construction: "a diagonal-Gaussian
with mean 0 and scale 1, matching the shape of the sampled latents". -/
def inlineZeroOnePrior (latents : BSeq Vec) : MVNDiag (BSeq Vec) :=
  ⟨zerosLike latents, onesLike latents⟩

/-- Variant A `IndependentSequence.infer_latents`: the batch size used for the
cells' initial states is `util.batch_size(hparams)`. -/
def inferLatentsA (hp : HParams) (M : InferModel Obs σe σf QP)
    (contexts : BSeq Vec) (observed : BSeq Obs) :
    Except ShapeError (BSeq Vec × BSeq Rat) :=
  match concatFeatures contexts (mapSeq M.obsEncoder observed) with
  | Except.error e => Except.error e
  | Except.ok inputs =>
      match dynamicRNN M.eCore (initialState M.eCore hp.batchSize) inputs with
      | Except.error e => Except.error e
      | Except.ok (eOuts, _) =>
          match reverseDynamicRNN M.fCore (initialState M.fCore hp.batchSize) eOuts with
          | Except.error e => Except.error e
          | Except.ok (fOuts, _) =>
              Except.ok
                (mapSeq M.sampleQ (mapSeq M.qz fOuts),
                  calcKlSeq M.calcKl (mapSeq M.qz fOuts)
                    (mapSeq M.sampleQ (mapSeq M.qz fOuts))
                    (inferPriorA (mapSeq M.sampleQ (mapSeq M.qz fOuts))))

/-- Variant B `IndependentSequence.infer_latents`: the batch size used for the
cells' initial states is `util.batch_size_from_nested_tensors(observed)`. -/
def inferLatentsB (M : InferModel Obs σe σf QP)
    (contexts : BSeq Vec) (observed : BSeq Obs) :
    Except ShapeError (BSeq Vec × BSeq Rat) :=
  match concatFeatures contexts (mapSeq M.obsEncoder observed) with
  | Except.error e => Except.error e
  | Except.ok inputs =>
      match dynamicRNN M.eCore (initialState M.eCore (batchSizeFromNestedTensors observed)) inputs with
      | Except.error e => Except.error e
      | Except.ok (eOuts, _) =>
          match reverseDynamicRNN M.fCore (initialState M.fCore (batchSizeFromNestedTensors observed)) eOuts with
          | Except.error e => Except.error e
          | Except.ok (fOuts, _) =>
              Except.ok
                (mapSeq M.sampleQ (mapSeq M.qz fOuts),
                  calcKlSeq M.calcKl (mapSeq M.qz fOuts)
                    (mapSeq M.sampleQ (mapSeq M.qz fOuts))
                    (inferPriorB (mapSeq M.sampleQ (mapSeq M.qz fOuts))))

/-- The inference pass exactly as the spec words it, step by step: encode each
observation independently; concatenate per-timestep context and encoded
observation; forward sweep with cell `e` from its default initial state;
genuine right-to-left sweep with cell `f` over the forward outputs from its
default initial state; decode posterior parameters at every fused output;
sample one latent per timestep; build the zero-mean, unit-scale prior shaped
like the latents; compute the per-timestep divergence; return the pair. -/
def inferLatentsClaim (M : InferModel Obs σe σf QP)
    (contexts : BSeq Vec) (observed : BSeq Obs) :
    Except ShapeError (BSeq Vec × BSeq Rat) :=
  match concatFeatures contexts (mapSeq M.obsEncoder observed) with
  | Except.error e => Except.error e
  | Except.ok inputs =>
      match dynamicRNN M.eCore (initialState M.eCore observed.length) inputs with
      | Except.error e => Except.error e
      | Except.ok (eOuts, _) =>
          match backwardDynamicRNN M.fCore (initialState M.fCore observed.length) eOuts with
          | Except.error e => Except.error e
          | Except.ok (fOuts, _) =>
              Except.ok
                (mapSeq M.sampleQ (mapSeq M.qz fOuts),
                  calcKlSeq M.calcKl (mapSeq M.qz fOuts)
                    (mapSeq M.sampleQ (mapSeq M.qz fOuts))
                    (inlineZeroOnePrior (mapSeq M.sampleQ (mapSeq M.qz fOuts))))

/-! ### Claim statements rendered as propositions, and concrete instances -/

/-- The spec's reading of `LatentPrior.dist`: for every requested batch size,
the returned distribution is the freshly constructed zero-location, unit-scale
distribution of shape [batch_size, latent_size] — in variant B as a function of
the `batch_size` argument, and in variant A (whose `dist` ignores its
parameters and returns the distribution cached at construction) the cached
value would have to match every requested batch size. -/
def DistFreshZeroOne : Prop :=
  (∀ hp : HParams, ∀ b : Nat, 1 ≤ b →
    latentPriorDistB hp b = freshZeroOnePrior hp.latentSize b) ∧
  (∀ hp : HParams, ∀ b : Nat, 1 ≤ b →
    latentPriorDistA (LatentPriorA.ofHParams hp) () = freshZeroOnePrior hp.latentSize b)

/-- Variant A builds the KL prior of `infer_latents` inline as the zero/one
Gaussian shaped like the sampled latents. -/
def constructsInlineA : Prop :=
  ∀ latents : BSeq Vec, inferPriorA latents = inlineZeroOnePrior latents

/-- Variant B builds the KL prior of `infer_latents` inline as the zero/one
Gaussian shaped like the sampled latents. -/
def constructsInlineB : Prop :=
  ∀ latents : BSeq Vec, inferPriorB latents = inlineZeroOnePrior latents

/-- The spec's reading of variant A's `LatentPrior.step`: its parameters output
is a descriptor from which the batch size of the context's leading dimension
can be recovered, and the new state is empty. -/
def ReturnsBatchSizeA : Prop :=
  ∃ f : Unit → Nat, ∀ context : List Vec, ∀ s : Unit,
    f (latentPriorBuildA context s).1 = batchSizeFromNestedTensors context ∧
      (latentPriorBuildA context s).2 = ()

/-- The spec's reading of variant B's `LatentPrior.step`: it returns the batch
size of the context's leading dimension paired with the empty state. -/
def ReturnsBatchSizeB : Prop :=
  ∀ context : List Vec, ∀ s : Unit,
    latentPriorBuildB context s = (batchSizeFromNestedTensors context, ())

/-- A one-unit identity-like cell used to evaluate the pipelines on concrete
data: the output is the input and the state is passed through unchanged. -/
def wCell : RNNCell Rat Vec Vec :=
  ⟨0, fun v s => (v, s)⟩

/-- A concrete inference model over rational observations: the encoder wraps
the observation in a singleton feature vector, the latent decoder and sampler
are identities, and the divergence function is constantly zero. -/
def wModel : InferModel Rat Rat Rat Vec :=
  ⟨fun o => [o], wCell, wCell, id, id, fun _ _ _ => 0⟩

/-- Concrete hyperparameters: batch size 1, latent size 1, scalar shape. -/
def wHP : HParams :=
  ⟨1, 1, []⟩

/-- A concrete aligned context sequence: batch 1, time 1, one feature. -/
def wContexts : BSeq Vec :=
  [[[1]]]

/-- A concrete aligned observed sequence: batch 1, time 1. -/
def wObserved : BSeq Rat :=
  [[2]]

/-- A context sequence whose batch axis (length 1) disagrees with
`wObservedBad`'s batch axis (length 0). -/
def wContextsBad : BSeq Vec :=
  [[[1]]]

/-- An observed sequence with an empty batch axis, misaligned with
`wContextsBad`. -/
def wObservedBad : BSeq Rat :=
  []

/-! ### Helper lemmas -/

theorem unroll_append (step : α → σ → β × σ) (s : σ) (as bs : List α) :
    unroll step s (as ++ bs) =
      ((unroll step s as).1 ++ (unroll step (unroll step s as).2 bs).1,
        (unroll step (unroll step s as).2 bs).2) := by
  induction as generalizing s with
  | nil => simp [unroll]
  | cons a at2 ih => simp [unroll, ih]

theorem unroll_reverse (step : α → σ → β × σ) (s : σ) (xs : List α) :
    unroll step s xs.reverse =
      ((backwardSweep step s xs).1.reverse, (backwardSweep step s xs).2) := by
  induction xs with
  | nil => simp [unroll, backwardSweep]
  | cons x xt ih =>
      rw [List.reverse_cons, unroll_append, ih]
      simp [unroll, backwardSweep]

theorem zipWith_unroll_reverse (step : α → σ → β × σ) (ss : List σ) (xs : BSeq α) :
    List.zipWith (fun s row => unroll step s row) ss (xs.map List.reverse) =
      (List.zipWith (fun s row => backwardSweep step s row) ss xs).map
        (fun p => (p.1.reverse, p.2)) := by
  induction xs generalizing ss with
  | nil => simp
  | cons x xt ih =>
      cases ss with
      | nil => simp
      | cons s st => simp [unroll_reverse, ih]

theorem reverseDynamicRNN_eq_backwardDynamicRNN (cell : RNNCell σ α β)
    (initStates : List σ) (inputs : BSeq α) :
    reverseDynamicRNN cell initStates inputs = backwardDynamicRNN cell initStates inputs := by
  unfold reverseDynamicRNN dynamicRNN backwardDynamicRNN
  rw [List.length_map]
  by_cases h : initStates.length = inputs.length
  · rw [if_pos h, if_pos h, zipWith_unroll_reverse]
    simp [List.map_map, Function.comp_def]
  · rw [if_neg h, if_neg h]

theorem concatRows_ok (r t : List Vec) (h : r.length = t.length) :
    ∃ rows, concatRows r t = Except.ok rows := by
  induction r generalizing t with
  | nil =>
      cases t with
      | nil => exact ⟨[], rfl⟩
      | cons b bt => simp at h
  | cons a at2 ih =>
      cases t with
      | nil => simp at h
      | cons b bt =>
          obtain ⟨rows, hrows⟩ := ih bt (by simpa using h)
          exact ⟨(a ++ b) :: rows, by simp [concatRows, hrows]⟩

theorem concatRows_length_ne (r t : List Vec) (h : r.length ≠ t.length) :
    concatRows r t = Except.error ShapeError.timeMismatch := by
  induction r generalizing t with
  | nil =>
      cases t with
      | nil => exact absurd rfl h
      | cons b bt => rfl
  | cons a at2 ih =>
      cases t with
      | nil => rfl
      | cons b bt =>
          have h2 : at2.length ≠ bt.length := by
            intro hEq
            exact h (by simp [hEq])
          simp [concatRows, ih bt h2]

theorem layoutOf_mapSeq (f : α → β) (xs : BSeq α) :
    layoutOf (mapSeq f xs) = layoutOf xs := by
  simp [layoutOf, mapSeq, List.map_map, Function.comp_def]

theorem concatFeatures_layout_mismatch (xs ys : BSeq Vec)
    (h : layoutOf xs ≠ layoutOf ys) :
    concatFeatures xs ys = Except.error (concatErrOf (layoutOf xs) (layoutOf ys)) := by
  induction xs generalizing ys with
  | nil =>
      cases ys with
      | nil => exact absurd rfl h
      | cons t ts => rfl
  | cons r rs ih =>
      cases ys with
      | nil => rfl
      | cons t ts =>
          by_cases hrt : r.length = t.length
          · have hne : layoutOf rs ≠ layoutOf ts := by
              intro hEq
              apply h
              simp only [layoutOf, List.map_cons] at hEq ⊢
              simp [hrt, hEq]
            obtain ⟨rows, hrows⟩ := concatRows_ok r t hrt
            simp [concatFeatures, hrows, ih ts hne, layoutOf, concatErrOf, hrt]
          · simp [concatFeatures, concatRows_length_ne r t hrt, layoutOf,
              concatErrOf, hrt]

theorem rolloutStates_unit (step : α → Unit → β × Unit) (s : Unit) (xs : List α) :
    rolloutStates step s xs = List.replicate xs.length () := by
  induction xs generalizing s with
  | nil => rfl
  | cons x xt ih => simp [rolloutStates, ih, List.replicate]

/-! ### Claim theorems -/

/-- C1: for every model and every contexts/observed pair, both variants'
`infer_latents` equal the spec's pipeline — encode each observation
independently, concatenate context and encoded observation, forward sweep with
cell `e` from its default initial state, backward sweep with cell `f` over the
complete forward output from its default initial state, decode the posterior
parameters at every fused output, sample one latent per timestep, compute the
per-timestep divergence against a zero-mean unit-scale diagonal Gaussian
shaped like the latents, and return the (latents, divergences) pair; variant A
additionally requires its hyperparameter batch size to match the data. -/
theorem C1_infer_latents_pipeline {Obs σe σf QP : Type}
    (M : InferModel Obs σe σf QP) (contexts : BSeq Vec) (observed : BSeq Obs)
    (hp : HParams) (h : hp.batchSize = observed.length) :
    inferLatentsB M contexts observed = inferLatentsClaim M contexts observed ∧
    inferLatentsA hp M contexts observed = inferLatentsClaim M contexts observed := by
  constructor
  · simp only [inferLatentsB, inferLatentsClaim, batchSizeFromNestedTensors,
      reverseDynamicRNN_eq_backwardDynamicRNN, inferPriorB, inlineZeroOnePrior]
  · simp only [inferLatentsA, inferLatentsClaim, h,
      reverseDynamicRNN_eq_backwardDynamicRNN, inferPriorA, inlineZeroOnePrior]

/-- Witness for C1 at a concrete aligned batch-1, time-1 input. -/
theorem C1_infer_latents_pipeline_witness :
    wHP.batchSize = wObserved.length ∧
    (inferLatentsB wModel wContexts wObserved = inferLatentsClaim wModel wContexts wObserved ∧
      inferLatentsA wHP wModel wContexts wObserved = inferLatentsClaim wModel wContexts wObserved) :=
  ⟨rfl, C1_infer_latents_pipeline wModel wContexts wObserved wHP rfl⟩

/-- C2 counterexample: the claim that `LatentPrior.dist` always freshly
constructs a distribution of shape [batch_size, latent_size] fails on variant
A, whose `dist` returns the distribution cached at construction: with
hyperparameter batch size 2 and latent size 3, the cached value cannot equal
the fresh construction for both requested batch sizes 2 and 3. -/
theorem C2_counterexample : ¬ DistFreshZeroOne := by
  intro hcl
  have h2 := hcl.2 ⟨2, 3, []⟩ 2 (by decide)
  have h3 := hcl.2 ⟨2, 3, []⟩ 3 (by decide)
  rw [h2] at h3
  exact absurd h3 (by decide)

/-- C2 (amended): variant B's `dist(batch_size)` returns, for every batch size
and deterministically on every call, the zero-mean unit-scale diagonal
Gaussian of shape [batch_size, latent_size]; variant A's `dist` ignores its
parameters and returns the distribution cached at construction, which is the
zero-mean unit-scale diagonal Gaussian of shape
[hparams.batch_size, latent_size]. -/
theorem C2_dist_zero_one (hp : HParams) (b : Nat) (p : Unit) :
    latentPriorDistB hp b = freshZeroOnePrior hp.latentSize b ∧
    latentPriorDistA (LatentPriorA.ofHParams hp) p =
      freshZeroOnePrior hp.latentSize hp.batchSize :=
  ⟨rfl, rfl⟩

/-- C3 counterexample: it is not the case that exactly one of the two variants
constructs the KL prior of `infer_latents` inline — both do. -/
theorem C3_counterexample :
    ¬ ((constructsInlineA ∧ ¬ constructsInlineB) ∨
        (¬ constructsInlineA ∧ constructsInlineB)) := by
  intro hcl
  rcases hcl with ⟨hA, hnB⟩ | ⟨hnA, hB⟩
  · exact hnB fun _ => rfl
  · exact hnA fun _ => rfl

/-- C3 (amended): both repository variants construct the prior used for the KL
divergence inside `infer_latents` inline, as a zero-mean unit-scale diagonal
Gaussian shaped like the sampled latents, and the two inline constructions are
identical; neither obtains it from the `LatentPrior` distcore (whose
distribution carries no time axis). -/
theorem C3_both_inline :
    constructsInlineA ∧ constructsInlineB ∧
      ∀ latents : BSeq Vec, inferPriorA latents = inferPriorB latents :=
  ⟨fun _ => rfl, fun _ => rfl, fun _ => rfl⟩

/-- C4: when the contexts and observed sequences are misaligned on the batch or
time axes, both variants' `infer_latents` fail with a shape error that is the
same for every choice of encoder, cells, decoders and hyperparameters — the
failure is decided by the layouts alone, before any recurrent sweep runs. -/
theorem C4_shape_mismatch_fails_fast {Obs σe σf QP : Type}
    (contexts : BSeq Vec) (observed : BSeq Obs)
    (h : sameLayout contexts observed = false) :
    ∃ e : ShapeError, ∀ M : InferModel Obs σe σf QP, ∀ hp : HParams,
      inferLatentsB M contexts observed = Except.error e ∧
      inferLatentsA hp M contexts observed = Except.error e := by
  have hne : layoutOf contexts ≠ layoutOf observed := by
    intro hEq
    simp [sameLayout, hEq] at h
  refine ⟨concatErrOf (layoutOf contexts) (layoutOf observed), fun M hp => ?_⟩
  have hc : concatFeatures contexts (mapSeq M.obsEncoder observed) =
      Except.error (concatErrOf (layoutOf contexts) (layoutOf observed)) := by
    have h2 := concatFeatures_layout_mismatch contexts (mapSeq M.obsEncoder observed)
      (by rw [layoutOf_mapSeq]; exact hne)
    rwa [layoutOf_mapSeq] at h2
  constructor
  · simp [inferLatentsB, hc]
  · simp [inferLatentsA, hc]

/-- Witness for C4 at a concrete misaligned input (batch 1 vs batch 0). -/
theorem C4_shape_mismatch_fails_fast_witness :
    sameLayout wContextsBad wObservedBad = false ∧
    ∃ e : ShapeError, ∀ M : InferModel Rat Rat Rat Vec, ∀ hp : HParams,
      inferLatentsB M wContextsBad wObservedBad = Except.error e ∧
      inferLatentsA hp M wContextsBad wObservedBad = Except.error e :=
  ⟨rfl, C4_shape_mismatch_fails_fast wContextsBad wObservedBad rfl⟩

/-- C5: in both variants, `ObsDist.step` feeds the concatenated context
features through the wrapped cell `d`, hands the deterministic output together
with the latent to the external observation decoder, and returns the decoded
parameters with the cell's updated state; the persisted state never depends on
the latent. -/
theorem C5_obsdist_step {σ P Q : Type} (dCore : RNNCell σ Vec Vec)
    (decA : Vec → Vec → P) (decB : Vec × Vec → Q)
    (context : List Vec) (latent latent2 : Vec) (dState : σ) :
    obsDistBuildA dCore decA (context, latent) dState =
      (decA (dCore.step (concatFeatureGroup context) dState).1 latent,
        (dCore.step (concatFeatureGroup context) dState).2) ∧
    obsDistBuildB dCore decB (context, latent) dState =
      (decB ((dCore.step (concatFeatureGroup context) dState).1, latent),
        (dCore.step (concatFeatureGroup context) dState).2) ∧
    (obsDistBuildA dCore decA (context, latent) dState).2 =
      (obsDistBuildA dCore decA (context, latent2) dState).2 ∧
    (obsDistBuildB dCore decB (context, latent) dState).2 =
      (obsDistBuildB dCore decB (context, latent2) dState).2 :=
  ⟨rfl, rfl, rfl, rfl⟩

/-- C6: `ObsDist.next_state` is the identity on the cell state for every state
and every optional event, including no event at all. -/
theorem C6_next_state_identity {σ ε : Type} (dState : σ) (event : Option ε) :
    obsDistNextState dState event = dState ∧
    obsDistNextState dState (none : Option ε) = dState :=
  ⟨rfl, rfl⟩

/-- C7 counterexample: variant A's `LatentPrior.step` does not return a
batch-size descriptor — its parameters output is the constant `()`, so no
decoding can recover the batch size of both an empty context (batch 0) and a
singleton context (batch 1). -/
theorem C7_counterexample : ¬ (ReturnsBatchSizeA ∧ ReturnsBatchSizeB) := by
  intro hcl
  obtain ⟨f, hf⟩ := hcl.1
  have h0 := (hf [] ()).1
  have h1 := (hf [([] : Vec)] ()).1
  simp [latentPriorBuildA, batchSizeFromNestedTensors] at h0 h1
  rw [h0] at h1
  exact absurd h1 (by decide)

/-- C7 (amended): variant B's `LatentPrior.step` returns the batch size read
off the context's leading dimension paired with the empty state `()`, and
performs no other computation; variant A's `LatentPrior.step` discards both
arguments and returns `((), ())`. -/
theorem C7_step_variants (context : List Vec) (s : Unit) :
    latentPriorBuildB context s = (batchSizeFromNestedTensors context, ()) ∧
    latentPriorBuildA context s = ((), ()) :=
  ⟨rfl, rfl⟩

/-- C8 counterexample: with hyperparameter observation shape [2] and a decoder
declaring event size [7], variant A's `ObsDist.event_size` is [2], not the
decoder's declared [7] — so the descriptors do not both delegate to the
decoder in every variant. -/
theorem C8_counterexample :
    ¬ ∀ (hp : HParams) (dec : ObsDecoderSig),
        obsDistEventSizeA hp dec = dec.eventSize ∧
        obsDistEventDtypeA hp dec = dec.eventDtype ∧
        obsDistEventSizeB dec = dec.eventSize ∧
        obsDistEventDtypeB dec = dec.eventDtype := by
  intro hcl
  have h2 := (hcl ⟨1, 1, [2]⟩ ⟨[7], DType.float32⟩).1
  exact absurd h2 (by decide)

/-- C8 (amended): in variant B both `event_size` and `event_dtype` delegate to
the external observation decoder; in variant A `event_dtype` delegates to the
decoder but `event_size` is read from the hyperparameter bundle's observation
shape, so it equals the decoder's declared event size exactly when
`hparams.obs_shape` does. -/
theorem C8_event_descriptors (hp : HParams) (dec : ObsDecoderSig) :
    obsDistEventSizeB dec = dec.eventSize ∧
    obsDistEventDtypeB dec = dec.eventDtype ∧
    obsDistEventSizeA hp dec = hp.obsShape ∧
    obsDistEventDtypeA hp dec = dec.eventDtype ∧
    (obsDistEventSizeA hp dec = dec.eventSize ↔ hp.obsShape = dec.eventSize) :=
  ⟨rfl, rfl, rfl, rfl, Iff.rfl⟩

/-- C9: for every recurrent cell, every batch of initial states and every
finite input sequence, reversing each batch element along the time axis,
running the forward sweep and reversing the outputs again equals running the
genuine right-to-left sweep directly — independent of the cell's weights. -/
theorem C9_reverse_roundtrip_is_backward {σ α β : Type} (cell : RNNCell σ α β)
    (initStates : List σ) (inputs : BSeq α) :
    reverseDynamicRNN cell initStates inputs = backwardDynamicRNN cell initStates inputs :=
  reverseDynamicRNN_eq_backwardDynamicRNN cell initStates inputs

/-- C10: `LatentPrior` never accumulates recurrent state — `next_state`
returns `()` for every state argument of any type and every optional event,
both variants' `step` return the empty state, and a rollout threading state
through variant B's `step` keeps the state at `()` after every timestep. -/
theorem C10_latent_prior_stateless {τ ε : Type} (stateArg : τ) (event : Option ε)
    (context : List Vec) (s : Unit) (steps : List (List Vec)) :
    latentPriorNextState stateArg event = () ∧
    (latentPriorBuildA context s).2 = () ∧
    (latentPriorBuildB context s).2 = () ∧
    rolloutStates latentPriorBuildB s steps = List.replicate steps.length () :=
  ⟨rfl, rfl, rfl, rolloutStates_unit latentPriorBuildB s steps⟩

end VaeSeq
